import Mathlib

/-!
Shallow embedding of the MPSC channel implementation from `src/mpsc.c`
(BB-301/c-mpsc).  Each lock-protected critical section of the C code is
modelled as a pure function on an explicit channel-state record; blocking
condition-variable waits are modelled by an environment function that maps
the state at the start of the wait to the state observed when the wait loop
exits.  Machine events that matter to the specification (locking, signalling
condition variables, invoking user callbacks) are recorded in explicit event
traces.
-/

namespace CMpsc

/-- The channel state `struct mpsc_s` (src/mpsc.c lines 80-109), restricted to
the fields the protocol reads and writes under the lock.  The C array
`producer_waiting_ids_queue` together with its fill counter
`n_producers_waiting` is modelled as a list (the first `n_producers_waiting`
entries); the C sentinel `next_waiting_producer_id = -1` is modelled as
`none`; the per-producer `done` flags (one per registered producer record)
are collected in the list `producers_done` of length `producer_count`. -/
structure State where
  buffer_size : Nat
  n_max_producers : Nat
  buffer : List Nat
  n : Nat
  pending_message : Bool
  joined : Bool
  closed : Bool
  n_producers_closed : Nat
  error_handling_enabled : Bool
  producer_count : Nat
  producers_done : List Bool
  producer_waiting_ids_queue : List Nat
  next_waiting_producer_id : Option Nat
deriving Repr, DecidableEq

/-- Observable synchronization / callback events emitted by a critical
section, in program order. -/
inductive Event where
  | lock
  | unlock
  | signalMain
  | signalProducer (id : Nat)
  | consumerCallback (data : Option (List Nat)) (n : Nat) (closed : Bool)
  | errorCallback
deriving Repr, DecidableEq

/-- The enum `mpsc_register_producer_error_t` (include/mpsc.h). -/
inductive RegisterError where
  | NONE
  | CLOSED
  | N_MAX_PRODUCERS_REACHED
  | EAGAIN
deriving Repr, DecidableEq

/-- The state of a channel right after a fully successful `mpsc_create`
(src/mpsc.c lines 111-182): open, not joined, no pending message, no
registered producer, empty wait queue, no elected producer.  The slot buffer
is `buffer_size` bytes (contents meaningful only while a message is
pending; modelled as zeros). -/
def initialState (buffer_size n_max_producers : Nat)
    (error_handling_enabled : Bool) : State :=
  { buffer_size := buffer_size
    n_max_producers := n_max_producers
    buffer := List.replicate buffer_size 0
    n := 0
    pending_message := false
    joined := false
    closed := false
    n_producers_closed := 0
    error_handling_enabled := error_handling_enabled
    producer_count := 0
    producers_done := []
    producer_waiting_ids_queue := []
    next_waiting_producer_id := none }

/-- Model of `mpsc_register_producer` (src/mpsc.c lines 233-261).  The argument
`threadCreateOk` models the success of `my_thread_create` (its `false` case
models the recoverable `EAGAIN` return under report policy).  The checks
happen in the C order: capacity first, then `closed`, then thread creation;
on success the new producer record (with `done = false`) is stored at index
`producer_count`, which is then incremented.  The `joined` flag is never
consulted. -/
def mpsc_register_producer (s : State) (threadCreateOk : Bool) :
    RegisterError × State :=
  if s.n_max_producers = s.producer_count then
    (RegisterError.N_MAX_PRODUCERS_REACHED, s)
  else if s.closed then
    (RegisterError.CLOSED, s)
  else if !threadCreateOk then
    (RegisterError.EAGAIN, s)
  else
    (RegisterError.NONE,
      { s with producer_count := s.producer_count + 1
               producers_done := s.producers_done ++ [false] })

/-- The first critical section of `mpsc_join` (src/mpsc.c lines 186-221):
abort (`none`) if already joined, set `joined := true`, abort if no producer
was registered, and close the channel (signalling the main condition
variable) iff every registered producer has already finished.  The
thread-identity check of lines 187-198 concerns pthread identities and is
outside the state model. -/
def mpsc_join_enter (s : State) : Option State :=
  if s.joined then none
  else
    let s1 : State := { s with joined := true }
    if s1.producer_count = 0 then none
    else if s1.producer_count = s1.n_producers_closed then
      some { s1 with closed := true }
    else some s1

/-- Model of `mpsc_producer_done` for the producer at index `i` (src/mpsc.c lines
351-367): only when the producer's `done` flag goes from `false` to `true`
is `n_producers_closed` incremented and the joined-and-all-done closure
transition evaluated. -/
def mpsc_producer_done (s : State) (i : Nat) : State :=
  match s.producers_done.get? i with
  | none => s
  | some true => s
  | some false =>
    let s1 : State :=
      { s with producers_done := s.producers_done.set i true
               n_producers_closed := s.n_producers_closed + 1 }
    if s1.n_producers_closed = s1.producer_count ∧ s1.joined then
      { s1 with closed := true }
    else s1

/-- The state change performed by `mpsc_producer_subscribe_to_wait_queue`
(src/mpsc.c lines 407-408): the producer's index is appended at the tail of
the wait queue. -/
def subscribedState (s : State) (id : Nat) : State :=
  { s with producer_waiting_ids_queue := s.producer_waiting_ids_queue ++ [id] }

/-- Model of `mpsc_producer_subscribe_to_wait_queue` (src/mpsc.c lines 379-410).
`none` models the fatal abort when the wait queue is already full (lines
399-406); the pointer-identity search of lines 381-397 is modelled by
passing the producer's index `id` directly. -/
def mpsc_producer_subscribe_to_wait_queue (s : State) (id : Nat) :
    Option State :=
  if s.producer_waiting_ids_queue.length = s.n_max_producers then none
  else some (subscribedState s id)

/-- Model of `mpsc_shift_producer_wait_queue` (src/mpsc.c lines 412-428): fatal abort
(`none`) on an empty queue; otherwise every entry is shifted down by one
(dropping the head) and `next_waiting_producer_id` is reset to `-1`
(`none`). -/
def mpsc_shift_producer_wait_queue (s : State) : Option State :=
  match s.producer_waiting_ids_queue with
  | [] => none
  | _ :: rest =>
    some { s with producer_waiting_ids_queue := rest
                  next_waiting_producer_id := none }

/-- The deposit step of `mpsc_producer_send` (src/mpsc.c lines 335-340):
`memcpy` the `n = data.length` payload bytes into the start of the slot
(no copy when `n = 0`, in which case `data = []` and the slot is unchanged),
set `n`, set `pending_message := true`. -/
def depositMessage (s : State) (data : List Nat) : State :=
  { s with buffer := data ++ s.buffer.drop data.length
           n := data.length
           pending_message := true }

/-- Outcome of one `mpsc_producer_send` call. -/
inductive SendOutcome where
  /-- the unconditional `abort()` of src/mpsc.c lines 296-303
  (`n > buffer_size`), taken before the error policy could be consulted -/
  | abortSize
  /-- the fatal abort inside `mpsc_producer_subscribe_to_wait_queue`
  (wait queue already full) -/
  | abortQueueFull
  /-- the fatal abort inside `mpsc_shift_producer_wait_queue`
  (empty queue) -/
  | abortEmptyShift
  /-- a normal return with the accepted flag, the resulting channel state,
  and the emitted event trace -/
  | ret (accepted : Bool) (s : State) (events : List Event)
deriving Repr, DecidableEq

/-- Model of `mpsc_producer_send` (src/mpsc.c lines 293-344) for the producer at
index `id`, sending the `data.length` payload bytes `data`.  The blocking
wait of lines 317-322 (`while (!closed && next_waiting_producer_id != id)
wait;`) is modelled by the environment function `exitOf`, which maps the
state right after this producer subscribed to the wait queue to the channel
state observed when the wait loop exits (every intervening mutation is
performed by other threads under the lock).  Branch structure follows the C
exactly: size check, entry `closed` check, the
`pending_message || next_waiting_producer_id != -1` busy test, subscribe +
wait + re-check of `closed`, shift, deposit + signal. -/
def mpsc_producer_send (s : State) (data : List Nat) (id : Nat)
    (exitOf : State → State) : SendOutcome :=
  if data.length > s.buffer_size then SendOutcome.abortSize
  else if s.closed then SendOutcome.ret false s [Event.lock, Event.unlock]
  else if s.pending_message || s.next_waiting_producer_id.isSome then
    match mpsc_producer_subscribe_to_wait_queue s id with
    | none => SendOutcome.abortQueueFull
    | some sSub =>
      let sExit := exitOf sSub
      if sExit.closed then
        SendOutcome.ret false sExit [Event.lock, Event.unlock]
      else
        match mpsc_shift_producer_wait_queue sExit with
        | none => SendOutcome.abortEmptyShift
        | some s1 =>
          SendOutcome.ret true (depositMessage s1 data)
            [Event.lock, Event.signalMain, Event.unlock]
  else
    SendOutcome.ret true (depositMessage s data)
      [Event.lock, Event.signalMain, Event.unlock]

/-- Model of `mpsc_consumer_close` (src/mpsc.c lines 268-279): set `closed`, signal
the main condition variable, then signal the private condition variable of
every producer currently in the wait queue. -/
def mpsc_consumer_close (s : State) : State × List Event :=
  ({ s with closed := true },
    Event.lock :: Event.signalMain ::
      (s.producer_waiting_ids_queue.map Event.signalProducer ++ [Event.unlock]))

/-- Outcome of one iteration of the consumer thread's main loop. -/
inductive ConsumerOutcome where
  /-- the loop breaks (src/mpsc.c lines 588-594) and the terminal
  `closed = true` callback of line 624 fires; the channel state is
  unchanged -/
  | terminal (events : List Event)
  /-- the loop continues with the new channel state after the emitted
  events -/
  | cont (s : State) (events : List Event)
  /-- the fatal abort inside `my_malloc` when the per-message allocation
  fails with error handling disabled -/
  | abortOOM
deriving Repr, DecidableEq

/-- One iteration of `my_consumer_thread_callback`'s loop body (src/mpsc.c
lines 579-624), starting from the state `s` observed when the inner
condition-variable wait of lines 582-587 exits (so `pending_message ∨
closed` holds there).  `mallocOk` models the success of the per-message
`my_malloc` of line 599.  Branches in C order: terminal break when
`closed && !pending_message`; allocation-failure path (drop the message,
error callback after unlock, continue) when `n > 0` and the allocation
fails under report policy (abort under abort policy); otherwise copy the
message out, clear the slot, elect the head of the wait queue iff the
queue is non-empty and the channel is open, and invoke the consumer
callback after releasing the lock. -/
def my_consumer_iteration (s : State) (mallocOk : Bool) : ConsumerOutcome :=
  if s.closed && !s.pending_message then
    ConsumerOutcome.terminal
      [Event.lock, Event.unlock, Event.consumerCallback none 0 true]
  else
    let n := s.n
    if 0 < n ∧ mallocOk = false then
      if s.error_handling_enabled then
        ConsumerOutcome.cont { s with n := 0, pending_message := false }
          [Event.lock, Event.unlock, Event.errorCallback]
      else ConsumerOutcome.abortOOM
    else
      let msg : Option (List Nat) :=
        if 0 < n then some (s.buffer.take n) else none
      let s1 : State := { s with n := 0, pending_message := false }
      match s1.producer_waiting_ids_queue, s1.closed with
      | id :: _, false =>
        ConsumerOutcome.cont { s1 with next_waiting_producer_id := some id }
          [Event.lock, Event.signalProducer id, Event.unlock,
            Event.consumerCallback msg n false]
      | _, _ =>
        ConsumerOutcome.cont s1
          [Event.lock, Event.unlock, Event.consumerCallback msg n false]

/-! ### Wait-queue trace model (FIFO fairness)

`runQ` runs a sequence of wait-queue operations against a channel state:
an `arrive id` step is a producer subscribing to the wait queue inside
`send` (src/mpsc.c lines 313-315, via
`mpsc_producer_subscribe_to_wait_queue`), and a `serve` step is the
consumer electing the producer at the head of the queue (src/mpsc.c lines
613-617: `id = producer_waiting_ids_queue[0]; next_waiting_producer_id =
id; signal`) followed by the elected producer removing itself via
`mpsc_shift_producer_wait_queue` (line 333).  `runQ` returns the final
state together with the ids served, in service order; `none` models the
fatal aborts (queue full on arrival, empty queue on service). -/

/-- A wait-queue operation: a producer arrival or a consumer election. -/
inductive QOp where
  | arrive (id : Nat)
  | serve
deriving Repr, DecidableEq

/-- The producer ids that arrive in an operation sequence, in arrival
order. -/
def arrivals : List QOp → List Nat
  | [] => []
  | QOp.arrive id :: ops => id :: arrivals ops
  | QOp.serve :: ops => arrivals ops

/-- Run a sequence of wait-queue operations; see the section comment. -/
def runQ : State → List QOp → Option (State × List Nat)
  | s, [] => some (s, [])
  | s, QOp.arrive id :: ops =>
    match mpsc_producer_subscribe_to_wait_queue s id with
    | none => none
    | some s1 => runQ s1 ops
  | s, QOp.serve :: ops =>
    match s.producer_waiting_ids_queue with
    | [] => none
    | id :: _ =>
      let s1 : State := { s with next_waiting_producer_id := some id }
      match mpsc_shift_producer_wait_queue s1 with
      | none => none
      | some s2 =>
        match runQ s2 ops with
        | none => none
        | some (t, served) => some (t, id :: served)

/-! ### Creation-failure model (resource rollback)

`mpsc_create` (src/mpsc.c lines 111-182) performs, in order: malloc of the
channel struct, malloc of the slot buffer, malloc of the thread-id vector,
malloc of the producer vector, malloc of the per-producer
condition-variable vector, malloc of the wait queue, init of the main
condition variable, init of each of the `n_max_producers` producer
condition variables, init of the mutex, creation of the consumer thread.
On any failure it calls `mpsc_handle_creation_failure` (lines 446-531).
`malloc` does not zero memory, so a struct pointer field holds a defined
value only once the corresponding assignment in `mpsc_create` has run;
the model tracks this with `Option (Option Nat)`: `none` means the field
was never assigned (uninitialized memory), `some none` means it was
assigned NULL (a failed malloc result), `some (some k)` means it was
assigned a valid allocation.  The model covers report policy
(`error_handling_enabled = true`), under which the failing primitives
return their error instead of aborting. -/

/-- The failure points of `mpsc_create`, in program order. -/
inductive CreateStep where
  | allocSelf
  | allocBuffer
  | allocThreadIds
  | allocProducers
  | allocCondVarArr
  | allocQueue
  | initMainCv
  | initProducerCv (i : Nat)
  | initMutex
  | createThread
deriving Repr, DecidableEq

/-- The `errno` value `ENOMEM` (out of memory). -/
def ENOMEM : Nat := 12

/-- The `errno` value `EAGAIN` (resource temporarily unavailable). -/
def EAGAIN : Nat := 11

/-- The memory relevant to `mpsc_handle_creation_failure`: the struct
pointer itself and the five struct pointer fields it null-checks, plus
which synchronization objects have been initialized. -/
structure CreateMem where
  self : Option Nat
  buffer : Option (Option Nat) := none
  producer_thread_ids : Option (Option Nat) := none
  producers : Option (Option Nat) := none
  producer_condition_variables : Option (Option Nat) := none
  producer_waiting_ids_queue : Option (Option Nat) := none
  mainCvInit : Bool := false
  producerCvInit : Nat := 0
  mutexInit : Bool := false
deriving Repr, DecidableEq

/-- Result of a failed (or successful) `mpsc_create` under report policy. -/
inductive CreateResult where
  /-- every step succeeded; the channel handle is returned -/
  | ok
  /-- the call to `mpsc_handle_creation_failure` ran to completion: `NULL` is returned
  with this `errno` -/
  | reported (errnoOut : Nat)
  /-- undefined behavior: `mpsc_handle_creation_failure` dereferenced a
  struct field through a NULL `self` pointer -/
  | nullDeref
  /-- undefined behavior: `mpsc_handle_creation_failure` read a struct
  pointer field that `mpsc_create` had not yet assigned -/
  | uninitRead
  /-- the `abort()` on an unsupported `errno` (lines 463-468) -/
  | aborted
deriving Repr, DecidableEq

/-- Reading `self->field` inside `mpsc_handle_creation_failure`: undefined
behavior if `self` is NULL or if the field was never assigned. -/
def readField (self : Option Nat) (f : Option (Option Nat)) :
    CreateResult ⊕ Option Nat :=
  match self with
  | none => Sum.inl CreateResult.nullDeref
  | some _ =>
    match f with
    | none => Sum.inl CreateResult.uninitRead
    | some p => Sum.inr p

/-- Model of `mpsc_handle_creation_failure` (src/mpsc.c lines 446-531): validate
`errno` (abort unless `ENOMEM` or `EAGAIN`), run the type-directed destroy
switch (destroying condition variables and the mutex cannot fail in the
model), then null-check and free each of the five struct pointer fields in
the order of lines 505-524 — each check reads `self->field` — and finally
free `self` behind the lone `if (self != NULL)` guard of line 525,
returning NULL with the preserved `errno`. -/
def mpsc_handle_creation_failure (mem : CreateMem) (errnoIn : Nat) :
    CreateResult :=
  if errnoIn = ENOMEM ∨ errnoIn = EAGAIN then
    match readField mem.self mem.producer_condition_variables with
    | Sum.inl r => r
    | Sum.inr _ =>
      match readField mem.self mem.producer_waiting_ids_queue with
      | Sum.inl r => r
      | Sum.inr _ =>
        match readField mem.self mem.producers with
        | Sum.inl r => r
        | Sum.inr _ =>
          match readField mem.self mem.producer_thread_ids with
          | Sum.inl r => r
          | Sum.inr _ =>
            match readField mem.self mem.buffer with
            | Sum.inl r => r
            | Sum.inr _ => CreateResult.reported errnoIn
  else CreateResult.aborted

/-- Model of `mpsc_create` under report policy (src/mpsc.c lines 111-182), driven by
a failure scenario: `failAt` names the first step that fails (`none` for a
fully successful construction), and `condErrno` is the `errno` produced by
a failing condition-variable init (`ENOMEM` or `EAGAIN`, per
`my_condition_variable_init`).  Failing mallocs set `errno = ENOMEM`, a
failing mutex init sets `ENOMEM`, a failing thread creation sets `EAGAIN`.
The memory passed to `mpsc_handle_creation_failure` reflects exactly which
assignments had run by the failing step. -/
def mpsc_create_model (n_max_producers : Nat) (failAt : Option CreateStep)
    (condErrno : Nat) : CreateResult :=
  if failAt = some CreateStep.allocSelf then
    mpsc_handle_creation_failure { self := none } ENOMEM
  else
    let m1 : CreateMem := { self := some 0 }
    if failAt = some CreateStep.allocBuffer then
      mpsc_handle_creation_failure { m1 with buffer := some none } ENOMEM
    else
      let m2 : CreateMem := { m1 with buffer := some (some 1) }
      if failAt = some CreateStep.allocThreadIds then
        mpsc_handle_creation_failure
          { m2 with producer_thread_ids := some none } ENOMEM
      else
        let m3 : CreateMem := { m2 with producer_thread_ids := some (some 2) }
        if failAt = some CreateStep.allocProducers then
          mpsc_handle_creation_failure { m3 with producers := some none } ENOMEM
        else
          let m4 : CreateMem := { m3 with producers := some (some 3) }
          if failAt = some CreateStep.allocCondVarArr then
            mpsc_handle_creation_failure
              { m4 with producer_condition_variables := some none } ENOMEM
          else
            let m5 : CreateMem :=
              { m4 with producer_condition_variables := some (some 4) }
            if failAt = some CreateStep.allocQueue then
              mpsc_handle_creation_failure
                { m5 with producer_waiting_ids_queue := some none } ENOMEM
            else
              let m6 : CreateMem :=
                { m5 with producer_waiting_ids_queue := some (some 5) }
              if failAt = some CreateStep.initMainCv then
                mpsc_handle_creation_failure m6 condErrno
              else
                let m7 : CreateMem := { m6 with mainCvInit := true }
                match failAt with
                | some (CreateStep.initProducerCv i) =>
                  if i < n_max_producers then
                    mpsc_handle_creation_failure
                      { m7 with producerCvInit := i } condErrno
                  else CreateResult.ok
                | _ =>
                  let m8 : CreateMem :=
                    { m7 with producerCvInit := n_max_producers }
                  if failAt = some CreateStep.initMutex then
                    mpsc_handle_creation_failure m8 ENOMEM
                  else
                    let m9 : CreateMem := { m8 with mutexInit := true }
                    if failAt = some CreateStep.createThread then
                      mpsc_handle_creation_failure m9 EAGAIN
                    else CreateResult.ok

/-- The election invariant of the spec: `next_handoff` is either none or
the producer index at the head of the wait queue. -/
def InvHandoff (s : State) : Prop :=
  s.next_waiting_producer_id = none ∨
    s.next_waiting_producer_id = s.producer_waiting_ids_queue.head?

instance (s : State) : Decidable (InvHandoff s) := by
  unfold InvHandoff; infer_instance

/-- Book-keeping invariant tying `n_producers_closed` to the per-producer
`done` flags. -/
def CountInv (s : State) : Prop :=
  s.producers_done.length = s.producer_count ∧
    s.n_producers_closed = s.producers_done.count true

instance (s : State) : Decidable (CountInv s) := by
  unfold CountInv; infer_instance

/-! ### Helper lemmas -/

theorem take_length_append (l m : List Nat) : (l ++ m).take l.length = l := by
  induction l with
  | nil => simp
  | cons a t ih => simp [ih]

theorem count_true_set (l : List Bool) (i : Nat) (h : l.get? i = some false) :
    (l.set i true).count true = l.count true + 1 := by
  induction l generalizing i with
  | nil => simp at h
  | cons a t ih =>
    cases i with
    | zero =>
      simp only [List.get?] at h
      cases h
      simp [List.count_cons]
    | succ j =>
      simp only [List.get?] at h
      have := ih j h
      simp [List.count_cons, List.set, this]
      omega

theorem get_set_true (l : List Bool) (i : Nat) (h : l.get? i = some false) :
    (l.set i true).get? i = some true := by
  induction l generalizing i with
  | nil => simp at h
  | cons a t ih =>
    cases i with
    | zero => simp [List.set]
    | succ j =>
      simp only [List.get?] at h
      simpa [List.set] using ih j h

/-! ### Claim theorems -/

/-- C9: when `producer_count = max_producers` and `closed = true` hold
simultaneously, `mpsc_register_producer` returns
`MPSC_REGISTER_PRODUCER_ERROR_N_MAX_PRODUCERS_REACHED` rather than
`...CLOSED`: the capacity check of src/mpsc.c line 236 runs before the
closed check of line 241, so on a full channel the `closed` flag is never
consulted (the result is the same for every value of `closed`). -/
theorem register_full_takes_precedence (s : State) (b : Bool)
    (hfull : s.producer_count = s.n_max_producers) (_hclosed : s.closed = true) :
    (mpsc_register_producer s b).1 = RegisterError.N_MAX_PRODUCERS_REACHED ∧
    ∀ c, (mpsc_register_producer { s with closed := c } b).1 =
      RegisterError.N_MAX_PRODUCERS_REACHED := by
  constructor
  · simp [mpsc_register_producer, hfull]
  · intro c; simp [mpsc_register_producer, hfull]

/-- C9 witness: a concrete full, closed channel state. -/
theorem register_full_takes_precedence_witness :
    (mpsc_register_producer
      { initialState 4 1 false with
          producer_count := 1, closed := true, producers_done := [false] }
      true).1 = RegisterError.N_MAX_PRODUCERS_REACHED :=
  (register_full_takes_precedence
    { initialState 4 1 false with
        producer_count := 1, closed := true, producers_done := [false] }
    true rfl rfl).1

/-- A concrete channel state reached by registering one producer on a fresh
channel and then entering `mpsc_join` while that producer is still running:
`joined = true` but `closed = false`. -/
def joinedOpenState : State :=
  (mpsc_join_enter (mpsc_register_producer (initialState 4 2 false) true).2).getD
    (initialState 4 2 false)

/-- C4 counterexample: in the reachable state `joinedOpenState` (obtained
from a fresh channel by one successful registration followed by entering
`mpsc_join`), `joined = true` and yet `mpsc_register_producer` succeeds,
returning `MPSC_REGISTER_PRODUCER_ERROR_NONE`: `mpsc_register_producer`
(src/mpsc.c lines 233-261) never consults the `joined` flag, and
`mpsc_join` closes the channel on entry only when every producer has
already finished. -/
theorem register_after_join_counterexample :
    mpsc_join_enter (mpsc_register_producer (initialState 4 2 false) true).2 =
      some joinedOpenState ∧
    joinedOpenState.joined = true ∧
    joinedOpenState.closed = false ∧
    (mpsc_register_producer joinedOpenState true).1 = RegisterError.NONE := by
  decide

/-- C4 amended: registration is rejected once the channel is `closed`
(which `mpsc_join` causes on entry only when all producers are already
done): in every state with `closed = true`, `mpsc_register_producer`
returns an error (never `...NONE`) and leaves the state unchanged.
Entering `join` alone does not block registration. -/
theorem register_producer_rejected_once_closed (s : State) (b : Bool)
    (h : s.closed = true) :
    (mpsc_register_producer s b).1 ≠ RegisterError.NONE ∧
    (mpsc_register_producer s b).2 = s := by
  unfold mpsc_register_producer
  by_cases hf : s.n_max_producers = s.producer_count <;> simp [hf, h]

/-- C4 amended witness: a concrete closed channel state. -/
theorem register_producer_rejected_once_closed_witness :
    (mpsc_register_producer { initialState 4 2 false with closed := true }
      true).1 ≠ RegisterError.NONE :=
  (register_producer_rejected_once_closed
    { initialState 4 2 false with closed := true } true rfl).1

/-- C10: `mpsc_producer_done` is idempotent — a second execution for the
same producer leaves the state unchanged, because the guard of src/mpsc.c
line 354 increments `n_producers_closed` and evaluates the
joined-and-all-done closure transition only when the producer's `done`
flag goes from `false` to `true`.  Consequently, under the book-keeping
invariant (`n_producers_closed` counts the set `done` flags among the
`producer_count` producer records), the invariant is preserved and
`n_producers_closed` never exceeds `producer_count`. -/
theorem producer_done_get_none (s : State) (i : Nat)
    (h : s.producers_done.get? i = none) : mpsc_producer_done s i = s := by
  unfold mpsc_producer_done; rw [h]

theorem producer_done_get_true (s : State) (i : Nat)
    (h : s.producers_done.get? i = some true) : mpsc_producer_done s i = s := by
  unfold mpsc_producer_done; rw [h]

theorem producer_done_idempotent (s : State) (i : Nat) (h : CountInv s) :
    mpsc_producer_done (mpsc_producer_done s i) i = mpsc_producer_done s i ∧
    CountInv (mpsc_producer_done s i) ∧
    (mpsc_producer_done s i).n_producers_closed ≤
      (mpsc_producer_done s i).producer_count := by
  obtain ⟨hlen, hcount⟩ := h
  match hg : s.producers_done.get? i with
  | none =>
    rw [producer_done_get_none s i hg]
    exact ⟨producer_done_get_none s i hg, ⟨hlen, hcount⟩,
      by rw [hcount, ← hlen]; exact List.count_le_length true s.producers_done⟩
  | some true =>
    rw [producer_done_get_true s i hg]
    exact ⟨producer_done_get_true s i hg, ⟨hlen, hcount⟩,
      by rw [hcount, ← hlen]; exact List.count_le_length true s.producers_done⟩
  | some false =>
    have hflags : (mpsc_producer_done s i).producers_done =
        s.producers_done.set i true := by
      unfold mpsc_producer_done; rw [hg]
      dsimp only
      split <;> rfl
    have hcnt : (mpsc_producer_done s i).n_producers_closed =
        s.n_producers_closed + 1 := by
      unfold mpsc_producer_done; rw [hg]
      dsimp only
      split <;> rfl
    have hpc : (mpsc_producer_done s i).producer_count = s.producer_count := by
      unfold mpsc_producer_done; rw [hg]
      dsimp only
      split <;> rfl
    have hinv2 : CountInv (mpsc_producer_done s i) := by
      refine ⟨?_, ?_⟩
      · rw [hflags, hpc, List.length_set, hlen]
      · rw [hflags, hcnt, hcount, count_true_set s.producers_done i hg]
    have hg2 : (mpsc_producer_done s i).producers_done.get? i = some true := by
      rw [hflags]; exact get_set_true s.producers_done i hg
    refine ⟨producer_done_get_true _ i hg2, hinv2, ?_⟩
    rw [hinv2.2, ← hinv2.1]
    exact List.count_le_length true (mpsc_producer_done s i).producers_done

/-- C3: if the channel is closed while a message is pending, the next
consumer-loop iteration still takes the delivery branch — the break of
src/mpsc.c lines 588-594 requires `closed && !pending_message` — and
invokes the consumer callback non-terminally with the pending message
(under a successful per-message allocation); only the iteration after
that, with the slot emptied, breaks out and fires the terminal
`closed = true` callback of line 624.  Closure never discards a pending
message. -/
theorem close_does_not_discard_pending (s : State)
    (hc : s.closed = true) (hp : s.pending_message = true) :
    my_consumer_iteration s true =
      ConsumerOutcome.cont { s with n := 0, pending_message := false }
        [Event.lock, Event.unlock,
          Event.consumerCallback
            (if 0 < s.n then some (s.buffer.take s.n) else none) s.n false] ∧
    ∀ ok, my_consumer_iteration { s with n := 0, pending_message := false } ok =
      ConsumerOutcome.terminal
        [Event.lock, Event.unlock, Event.consumerCallback none 0 true] := by
  constructor
  · unfold my_consumer_iteration
    cases hq : s.producer_waiting_ids_queue <;> simp [hp, hc, hq]
  · intro ok
    unfold my_consumer_iteration
    simp [hc]

/-- C3 witness: a concrete closed channel with a pending 2-byte message. -/
theorem close_does_not_discard_pending_witness :
    my_consumer_iteration
        { initialState 4 1 false with
            closed := true, pending_message := true, n := 2,
            buffer := [7, 8, 0, 0], producer_count := 1,
            producers_done := [false] } true =
      ConsumerOutcome.cont
        { initialState 4 1 false with
            closed := true, pending_message := false, n := 0,
            buffer := [7, 8, 0, 0], producer_count := 1,
            producers_done := [false] }
        [Event.lock, Event.unlock,
          Event.consumerCallback (some [7, 8]) 2 false] := by
  have h := close_does_not_discard_pending
    { initialState 4 1 false with
        closed := true, pending_message := true, n := 2,
        buffer := [7, 8, 0, 0], producer_count := 1,
        producers_done := [false] } rfl rfl
  simpa using h.1

/-- C6: under report policy, when the per-message allocation of a non-empty
delivery buffer fails (src/mpsc.c lines 599-608), the pending message is
dropped (`pending_message := false`, `n := 0`), the consumer error
callback is invoked after the lock is released (the event trace is
exactly lock, unlock, error callback), the `closed` flag is unchanged so
the channel stays open, and the outcome is `cont`: the consumer loop
continues. -/
theorem consumer_alloc_failure_drops_message (s : State)
    (hp : s.pending_message = true) (hn : 0 < s.n)
    (hpol : s.error_handling_enabled = true) :
    my_consumer_iteration s false =
      ConsumerOutcome.cont { s with n := 0, pending_message := false }
        [Event.lock, Event.unlock, Event.errorCallback] ∧
    ({ s with n := 0, pending_message := false } : State).closed = s.closed := by
  constructor
  · unfold my_consumer_iteration
    simp [hp, hn, hpol]
  · rfl

/-- C6 witness: a concrete open channel with a pending 3-byte message and
a failing allocation. -/
theorem consumer_alloc_failure_drops_message_witness :
    my_consumer_iteration
        { initialState 4 1 true with
            pending_message := true, n := 3, buffer := [1, 2, 3, 0],
            producer_count := 1, producers_done := [false] } false =
      ConsumerOutcome.cont
        { initialState 4 1 true with
            pending_message := false, n := 0, buffer := [1, 2, 3, 0],
            producer_count := 1, producers_done := [false] }
        [Event.lock, Event.unlock, Event.errorCallback] :=
  (consumer_alloc_failure_drops_message
    { initialState 4 1 true with
        pending_message := true, n := 3, buffer := [1, 2, 3, 0],
        producer_count := 1, producers_done := [false] }
    rfl (by decide) rfl).1

/-- C7: `mpsc_producer_send` hits the unconditional `abort()` of
src/mpsc.c lines 296-303 exactly when the payload exceeds `buffer_size`;
the check precedes every other branch and never consults the error
policy, and under the precondition `n ≤ buffer_size` this fatal outcome
is unreachable. -/
theorem send_size_abort_iff (s : State) (data : List Nat) (id : Nat)
    (exitOf : State → State) :
    mpsc_producer_send s data id exitOf = SendOutcome.abortSize ↔
      data.length > s.buffer_size := by
  constructor
  · intro h
    by_contra hgt
    unfold mpsc_producer_send at h
    rw [if_neg hgt] at h
    split at h
    · exact SendOutcome.noConfusion h
    · split at h
      · split at h
        · exact SendOutcome.noConfusion h
        · dsimp only at h
          split at h
          · exact SendOutcome.noConfusion h
          · split at h
            · exact SendOutcome.noConfusion h
            · exact SendOutcome.noConfusion h
      · exact SendOutcome.noConfusion h
  · intro hgt
    unfold mpsc_producer_send
    rw [if_pos hgt]

/-- C5: evaluation of the creation-failure scenarios.  When the very first
allocation (the channel struct itself) fails, `mpsc_handle_creation_failure`
dereferences `self->producer_condition_variables` through the NULL `self`
pointer (src/mpsc.c line 505 runs before the `if (self != NULL)` guard of
line 525); when a later malloc fails before the remaining pointer fields
were assigned (e.g. the slot-buffer malloc), the cleanup reads
uninitialized struct fields.  Only once every malloc has succeeded (e.g. a
wait-queue malloc failure, a condition-variable/mutex init failure, or the
consumer-thread creation failure) does the unwind run cleanly and return
NULL with the root-cause `errno` preserved. -/
theorem create_failure_cleanup_eval :
    mpsc_create_model 2 (some CreateStep.allocSelf) ENOMEM =
      CreateResult.nullDeref ∧
    mpsc_create_model 2 (some CreateStep.allocBuffer) ENOMEM =
      CreateResult.uninitRead ∧
    mpsc_create_model 2 (some CreateStep.allocThreadIds) ENOMEM =
      CreateResult.uninitRead ∧
    mpsc_create_model 2 (some CreateStep.allocQueue) ENOMEM =
      CreateResult.reported ENOMEM ∧
    mpsc_create_model 2 (some (CreateStep.initProducerCv 1)) EAGAIN =
      CreateResult.reported EAGAIN ∧
    mpsc_create_model 2 (some CreateStep.initMutex) ENOMEM =
      CreateResult.reported ENOMEM ∧
    mpsc_create_model 2 (some CreateStep.createThread) ENOMEM =
      CreateResult.reported EAGAIN ∧
    mpsc_create_model 2 none ENOMEM = CreateResult.ok := by
  decide

/-- The function `mpsc_shift_producer_wait_queue` always leaves the invariant: it resets
`next_waiting_producer_id` to none. -/
theorem shift_preserves_handoff (u s2 : State)
    (h : mpsc_shift_producer_wait_queue u = some s2) : InvHandoff s2 := by
  unfold mpsc_shift_producer_wait_queue at h
  cases hq : u.producer_waiting_ids_queue with
  | nil => rw [hq] at h; exact Option.noConfusion h
  | cons a t =>
    rw [hq] at h
    cases h
    left; rfl

/-- The function `depositMessage` touches neither `next_waiting_producer_id` nor the
wait queue. -/
theorem deposit_preserves_handoff (u : State) (data : List Nat)
    (h : InvHandoff u) : InvHandoff (depositMessage u data) := by
  unfold InvHandoff at h ⊢
  exact h

/-- C8: the election invariant — `next_waiting_producer_id` is either none
(`-1`) or the index at the head of the wait queue — is preserved by every
operation that writes `next_waiting_producer_id` or the wait queue:
subscription (`mpsc_producer_subscribe_to_wait_queue`, tail append), the
shift (`mpsc_shift_producer_wait_queue`, which resets the election), the
consumer loop iteration (which elects exactly `wait_queue[0]`, src/mpsc.c
lines 613-617), and `mpsc_producer_send` (whose wait-exit states, produced
by other threads under the lock, are assumed to satisfy the invariant). -/
theorem next_handoff_invariant_preserved (s : State) (hInv : InvHandoff s) :
    (∀ bs nm eh, InvHandoff (initialState bs nm eh)) ∧
    (∀ id s1, mpsc_producer_subscribe_to_wait_queue s id = some s1 →
      InvHandoff s1) ∧
    (∀ s1, mpsc_shift_producer_wait_queue s = some s1 → InvHandoff s1) ∧
    (∀ ok s1 ev, my_consumer_iteration s ok = ConsumerOutcome.cont s1 ev →
      InvHandoff s1) ∧
    (∀ data id exitOf acc s1 ev, (∀ t, InvHandoff (exitOf t)) →
      mpsc_producer_send s data id exitOf = SendOutcome.ret acc s1 ev →
      InvHandoff s1) := by
  refine ⟨?_, ?_, ?_, ?_, ?_⟩
  · intro bs nm eh; exact Or.inl rfl
  · intro id s1 h
    unfold mpsc_producer_subscribe_to_wait_queue at h
    by_cases hl : s.producer_waiting_ids_queue.length = s.n_max_producers
    · rw [if_pos hl] at h; exact Option.noConfusion h
    · rw [if_neg hl] at h
      cases h
      unfold InvHandoff at hInv ⊢
      unfold subscribedState
      rcases hInv with h0 | hh
      · exact Or.inl h0
      · cases hq : s.producer_waiting_ids_queue with
        | nil => rw [hq] at hh; simp at hh; exact Or.inl hh
        | cons a t =>
          rw [hq] at hh
          right
          simpa using hh
  · exact fun s1 h => shift_preserves_handoff s s1 h
  · intro ok s1 ev h
    unfold my_consumer_iteration at h
    split at h
    · exact ConsumerOutcome.noConfusion h
    · dsimp only at h
      split at h
      · split at h
        · cases h
          unfold InvHandoff at hInv ⊢
          exact hInv
        · exact ConsumerOutcome.noConfusion h
      · split at h
        · rename_i id rest heq _hclosed
          cases h
          right
          simpa using (congrArg List.head? heq).symm
        · cases h
          unfold InvHandoff at hInv ⊢
          exact hInv
  · intro data id exitOf acc s1 ev henv h
    unfold mpsc_producer_send at h
    split at h
    · exact SendOutcome.noConfusion h
    · split at h
      · cases h; exact hInv
      · split at h
        · split at h
          · exact SendOutcome.noConfusion h
          · dsimp only at h
            split at h
            · cases h; exact henv _
            · split at h
              · exact SendOutcome.noConfusion h
              · rename_i s2 hsh
                cases h
                exact deposit_preserves_handoff s2 data
                  (shift_preserves_handoff _ s2 hsh)
        · cases h
          exact deposit_preserves_handoff s data hInv

/-- C8 witness: the invariant transported across a concrete subscription. -/
theorem next_handoff_invariant_preserved_witness :
    InvHandoff
      (subscribedState
        { initialState 4 2 false with
            producer_count := 2, producers_done := [false, false] } 1) := by
  have h := next_handoff_invariant_preserved
    { initialState 4 2 false with
        producer_count := 2, producers_done := [false, false] }
    (Or.inl rfl)
  exact h.2.1 1 _ rfl

theorem take_getElem (l : List Nat) (n i : Nat) (h : i < n) :
    (l.take n)[i]? = l[i]? := by
  induction l generalizing n i with
  | nil => simp
  | cons a t ih =>
    cases n with
    | zero => omega
    | succ m =>
      cases i with
      | zero => simp
      | succ j => simpa using ih m j (Nat.lt_of_succ_lt_succ h)

/-- Generalized FIFO invariant for the wait-queue trace: the ids served by
a run are an initial segment of the current queue followed by the later
arrivals. -/
theorem runQ_take (ops : List QOp) :
    ∀ (s t : State) (served : List Nat),
      runQ s ops = some (t, served) →
      served =
        (s.producer_waiting_ids_queue ++ arrivals ops).take served.length := by
  induction ops with
  | nil =>
    intro s t served h
    unfold runQ at h
    cases h
    simp
  | cons op ops ih =>
    cases op with
    | arrive id =>
      intro s t served h
      unfold runQ at h
      unfold mpsc_producer_subscribe_to_wait_queue at h
      by_cases hl : s.producer_waiting_ids_queue.length = s.n_max_producers
      · rw [if_pos hl] at h; exact Option.noConfusion h
      · rw [if_neg hl] at h
        dsimp only at h
        have h2 := ih (subscribedState s id) t served h
        unfold subscribedState at h2
        dsimp only at h2
        rw [h2]
        simp [arrivals]
    | serve =>
      intro s t served h
      unfold runQ at h
      cases hq : s.producer_waiting_ids_queue with
      | nil => rw [hq] at h; exact Option.noConfusion h
      | cons id rest =>
        rw [hq] at h
        unfold mpsc_shift_producer_wait_queue at h
        dsimp only at h
        cases h2 : runQ
            { s with
                next_waiting_producer_id := none
                producer_waiting_ids_queue := rest } ops with
        | none =>
          rw [h2] at h; exact Option.noConfusion h
        | some p =>
          rw [h2] at h
          obtain ⟨t2, served2⟩ := p
          dsimp only at h
          injection h with h'
          injection h' with hT hS
          subst hT
          subst hS
          have h3 := ih _ t2 served2 h2
          dsimp only at h3
          simp only [arrivals, List.length_cons, List.cons_append,
            List.take_succ_cons]
          exact congrArg (List.cons id) h3

/-- C2: producers blocked in `send` are served in strict FIFO order of
arrival: starting from an empty wait queue, the sequence of producer ids
elected by the consumer (each election taking `wait_queue[0]`, each
arrival appended at the tail) is exactly an initial segment of the
sequence of arrivals — so a producer that enters the wait queue strictly
before another is elected, and deposits, strictly before it (the i-th
election serves the i-th arrival). -/
theorem wait_queue_fifo (ops : List QOp) (s t : State) (served : List Nat)
    (h0 : s.producer_waiting_ids_queue = [])
    (h : runQ s ops = some (t, served)) :
    served = (arrivals ops).take served.length ∧
    ∀ i, i < served.length → served[i]? = (arrivals ops)[i]? := by
  have h1 := runQ_take ops s t served h
  rw [h0] at h1
  simp only [List.nil_append] at h1
  refine ⟨h1, fun i hi => ?_⟩
  rw [h1]
  exact take_getElem (arrivals ops) served.length i hi

/-- C2 witness: two producers arriving then being served twice, from a
fresh channel: service order `[5, 9]` equals arrival order. -/
theorem wait_queue_fifo_witness :
    ([5, 9] : List Nat) =
      (arrivals [QOp.arrive 5, QOp.arrive 9, QOp.serve, QOp.serve]).take
        (List.length ([5, 9] : List Nat)) ∧
    ∀ i, i < List.length ([5, 9] : List Nat) →
      ([5, 9] : List Nat)[i]? =
        (arrivals [QOp.arrive 5, QOp.arrive 9, QOp.serve, QOp.serve])[i]? :=
  wait_queue_fifo [QOp.arrive 5, QOp.arrive 9, QOp.serve, QOp.serve]
    (initialState 4 2 false)
    (initialState 4 2 false) [5, 9] rfl (by decide)

/-- C1: characterization of `mpsc_producer_send` under the precondition
`n ≤ buffer_size`.  The hypotheses on the wait-exit environment reflect
the C wait loop: its exit condition is `closed ∨ next_waiting_producer_id
= id`, and in the open case the elected producer is in the queue (so the
queue is non-empty); the queue is also not full on entry since this
producer is not yet subscribed.  The call returns `false` iff the channel
was observed closed before the message could be deposited — either on
entry (line 304) or on waking from the wait queue (line 323) — and
returns `true` iff the payload bytes were copied into the slot,
`n` (`slot_len`) set to the payload length, `pending_message` set, and
the consumer's main condition variable signaled before the lock was
released; a `false` return signals nothing and deposits nothing. -/
theorem mpsc_producer_send_correct (s : State) (data : List Nat) (id : Nat)
    (exitOf : State → State)
    (hn : data.length ≤ s.buffer_size)
    (hq : s.producer_waiting_ids_queue.length ≠ s.n_max_producers)
    (hexit : (exitOf (subscribedState s id)).closed = false →
      (exitOf (subscribedState s id)).producer_waiting_ids_queue ≠ []) :
    ∃ acc sf ev,
      mpsc_producer_send s data id exitOf = SendOutcome.ret acc sf ev ∧
      (acc = false ↔
        (s.closed = true ∨
          ((s.pending_message || s.next_waiting_producer_id.isSome) = true ∧
            (exitOf (subscribedState s id)).closed = true))) ∧
      (acc = true →
        sf.n = data.length ∧ sf.pending_message = true ∧
        sf.buffer.take data.length = data ∧
        ev = [Event.lock, Event.signalMain, Event.unlock]) ∧
      (acc = false → ev = [Event.lock, Event.unlock]) := by
  have hngt : ¬ data.length > s.buffer_size := not_lt.mpr hn
  have hsub : mpsc_producer_subscribe_to_wait_queue s id =
      some (subscribedState s id) := by
    unfold mpsc_producer_subscribe_to_wait_queue; rw [if_neg hq]
  unfold mpsc_producer_send
  rw [if_neg hngt]
  by_cases hc : s.closed = true
  · rw [if_pos hc]
    refine ⟨false, s, _, rfl, ?_, ?_, ?_⟩
    · simp [hc]
    · intro h; exact absurd h (by simp)
    · intro _; rfl
  · have hc0 : s.closed = false := by simpa using hc
    rw [if_neg hc]
    by_cases hb : (s.pending_message || s.next_waiting_producer_id.isSome) = true
    · rw [if_pos hb, hsub]
      dsimp only
      by_cases he : (exitOf (subscribedState s id)).closed = true
      · rw [if_pos he]
        refine ⟨false, _, _, rfl, ?_, ?_, ?_⟩
        · simp [hb, he]
        · intro h; exact absurd h (by simp)
        · intro _; rfl
      · have he0 : (exitOf (subscribedState s id)).closed = false := by
          simpa using he
        rw [if_neg he]
        obtain ⟨a, rest, hqe⟩ := List.exists_cons_of_ne_nil (hexit he0)
        unfold mpsc_shift_producer_wait_queue
        rw [hqe]
        dsimp only
        refine ⟨true, _, _, rfl, ?_, ?_, ?_⟩
        · simp [hc0, he0]
        · intro _
          exact ⟨rfl, rfl, take_length_append data _, rfl⟩
        · intro h; exact absurd h (by simp)
    · rw [if_neg hb]
      refine ⟨true, _, _, rfl, ?_, ?_, ?_⟩
      · simp [hc0, hb]
      · intro _
        exact ⟨rfl, rfl, take_length_append data _, rfl⟩
      · intro h; exact absurd h (by simp)

/-- A trivial wait-exit environment for concrete send runs: no other
thread changes the state while the producer waits. -/
def sendExitEnv : State → State := fun t => t

/-- C1 witness: a one-byte send on a fresh open channel accepts and
deposits. -/
theorem mpsc_producer_send_correct_witness :
    ∃ acc sf ev,
      mpsc_producer_send (initialState 4 2 false) [7] 0 sendExitEnv =
        SendOutcome.ret acc sf ev ∧
      (acc = false ↔
        ((initialState 4 2 false).closed = true ∨
          (((initialState 4 2 false).pending_message ||
              (initialState 4 2 false).next_waiting_producer_id.isSome) = true ∧
            (sendExitEnv (subscribedState (initialState 4 2 false) 0)).closed =
              true))) ∧
      (acc = true →
        sf.n = List.length [7] ∧ sf.pending_message = true ∧
        sf.buffer.take (List.length [7]) = [7] ∧
        ev = [Event.lock, Event.signalMain, Event.unlock]) ∧
      (acc = false → ev = [Event.lock, Event.unlock]) :=
  mpsc_producer_send_correct (initialState 4 2 false) [7] 0 sendExitEnv
    (by decide) (by decide) (fun _ => by decide)

/-- C10 witness: a concrete channel state with one unfinished producer. -/
theorem producer_done_idempotent_witness :
    mpsc_producer_done
        (mpsc_producer_done
          { initialState 4 2 false with
              producer_count := 1, producers_done := [false] } 0) 0 =
      mpsc_producer_done
        { initialState 4 2 false with
            producer_count := 1, producers_done := [false] } 0 :=
  (producer_done_idempotent
    { initialState 4 2 false with
        producer_count := 1, producers_done := [false] } 0
    (by decide)).1

end CMpsc
